import Mathlib

/-!
Shallow embedding of the product-configurator server (`src/server.js`):
in-memory template store, compatibility-rule evaluation, option filtering,
configuration validation with pricing, and the mutation endpoints.

JavaScript objects iterated with `Object.entries` / `Object.keys` are
modelled as association lists (`List (String × _)`) preserving insertion
order, with lookup returning the first binding.  JS `===` on strings is
string equality; a missing property reads as `none`.  The request-body
check `!body[field]` is a JS falsy test: absent fields are falsy, and for
numbers the value `0` is falsy as well — both are modelled explicitly.
-/

set_option autoImplicit false

namespace ConfigServer

/-- One option of a category: `{ name, price_delta }` in `server.js`. -/
structure ProductOption where
  name : String
  price_delta : Int
deriving DecidableEq, Repr

/-- A compatibility rule as pushed at `server.js:33-37`. -/
structure Rule where
  rule_type : String
  primary_choice_str_id : String
  secondary_choice_str_id : String
deriving DecidableEq, Repr

/-- A selection context: JS object mapping choice id → choice id. -/
abbrev Selections := List (String × String)

/-- A category's option mapping: JS object choice id → option. -/
abbrev CategoryOptions := List (String × ProductOption)

/-- One template: `{ compatibilityRules, options, base_price }` (`server.js:30`). -/
structure Template where
  compatibilityRules : List Rule
  options : List (String × CategoryOptions)
  base_price : Int
deriving DecidableEq, Repr

/-- The shell created on first mutation: `{ compatibilityRules: [], options: {}, base_price: 0 }`. -/
def emptyTemplate : Template :=
  { compatibilityRules := [], options := [], base_price := 0 }

/-- The in-memory `templates` object (`server.js:8`). -/
abbrev Store := List (String × Template)

/-- First-binding lookup in a JS object modelled as an association list. -/
def lookupEntry {α : Type} : List (String × α) → String → Option α
  | [], _ => none
  | (k, v) :: rest, key => if k = key then some v else lookupEntry rest key

/-- JS property assignment `obj[key] = v`: replace in place, else append. -/
def setEntry {α : Type} : List (String × α) → String → α → List (String × α)
  | [], key, v => [(key, v)]
  | (k, w) :: rest, key, v =>
      if k = key then (key, v) :: rest else (k, w) :: setEntry rest key v

/-- Mutation step `if (!templates[id]) templates[id] = shell` followed by a
field update: rewrite the template under `tid`, creating the shell first
when absent. -/
def modifyTemplate : Store → String → (Template → Template) → Store
  | [], tid, f => [(tid, f emptyTemplate)]
  | (k, t) :: rest, tid, f =>
      if k = tid then (k, f t) :: rest else (k, t) :: modifyTemplate rest tid f

/-- The JS test `selections[k] === k`: choice `k` is currently selected. -/
def isSelected (sel : Selections) (k : String) : Bool :=
  match lookupEntry sel k with
  | some v => v == k
  | none => false

/-- The rule predicate of the available-options handler (`server.js:59-67`). -/
def ruleSatisfied (sel : Selections) (r : Rule) : Bool :=
  if r.rule_type = "REQUIRES" ∧ isSelected sel r.primary_choice_str_id = true then
    isSelected sel r.secondary_choice_str_id
  else if r.rule_type = "INCOMPATIBLE_WITH" ∧ isSelected sel r.primary_choice_str_id = true then
    !(isSelected sel r.secondary_choice_str_id)
  else
    true

/-- The violation message pushed for a rule (`server.js:99` and `server.js:104`). -/
def violationMessage (r : Rule) : String :=
  if r.rule_type = "REQUIRES" then
    "\"" ++ r.primary_choice_str_id ++ "\" requires \"" ++ r.secondary_choice_str_id ++ "\""
  else
    "\"" ++ r.primary_choice_str_id ++ "\" is incompatible with \"" ++ r.secondary_choice_str_id ++ "\""

/-- Errors one rule contributes in the validate handler (`server.js:96-107`). -/
def ruleErrors (sel : Selections) (r : Rule) : List String :=
  (if r.rule_type = "REQUIRES" ∧ isSelected sel r.primary_choice_str_id = true then
    if isSelected sel r.secondary_choice_str_id = false then
      ["\"" ++ r.primary_choice_str_id ++ "\" requires \"" ++ r.secondary_choice_str_id ++ "\""]
    else []
  else [])
  ++
  (if r.rule_type = "INCOMPATIBLE_WITH" ∧ isSelected sel r.primary_choice_str_id = true then
    if isSelected sel r.secondary_choice_str_id = true then
      ["\"" ++ r.primary_choice_str_id ++ "\" is incompatible with \"" ++ r.secondary_choice_str_id ++ "\""]
    else []
  else [])

/-- The `errors` array accumulated over `template.compatibilityRules.forEach`. -/
def collectErrors (sel : Selections) : List Rule → List String
  | [] => []
  | r :: rest => ruleErrors sel r ++ collectErrors sel rest

/-- The price loop of the validate handler (`server.js:113-118`):
for each selection entry, `template.options[key]?.[value]` contributes its
`price_delta` when present. -/
def priceSum (t : Template) (sel : Selections) : Int :=
  sel.foldl
    (fun acc kv =>
      match lookupEntry t.options kv.1 with
      | some catOpts =>
          match lookupEntry catOpts kv.2 with
          | some o => acc + o.price_delta
          | none => acc
      | none => acc)
    0

/-- Price contribution of a single selection entry, as the code resolves it:
the entry's key is looked up as a category identifier and its value as a
choice within that category. -/
def entryDelta (t : Template) (kv : String × String) : Int :=
  match lookupEntry t.options kv.1 with
  | some catOpts =>
      match lookupEntry catOpts kv.2 with
      | some o => o.price_delta
      | none => 0
  | none => 0

/-- Modelled from the spec's words (§4.3), for comparison with the code:
the price delta a selection KEY contributes when it "resolves to a real
option in some category of the template". -/
def specDeltaOfKey (t : Template) (k : String) : Int :=
  match t.options.findSome? (fun c => lookupEntry c.2 k) with
  | some o => o.price_delta
  | none => 0

/-- Modelled from the spec's words (§4.3): `basePrice + Σ priceDelta` over
every entry of `selections` whose key resolves to a real option in some
category. -/
def specTotalPrice (t : Template) (sel : Selections) : Int :=
  t.base_price + (sel.map (fun kv => specDeltaOfKey t kv.1)).sum

/-- An option summary returned by the available-options handler (`server.js:69-73`). -/
structure OptionSummary where
  name : String
  choice_str_id : String
  price_delta : Int
deriving DecidableEq, Repr

/-- The filter-and-map of the available-options handler (`server.js:57-73`),
for an existing template.  The filter predicate ignores the candidate entry,
exactly as the source lambda never uses its destructured arguments. -/
def availableOptionsCore (t : Template) (cat : String) (sel : Selections) : List OptionSummary :=
  (((lookupEntry t.options cat).getD []).filter
      (fun _ => t.compatibilityRules.all (fun r => ruleSatisfied sel r))).map
    (fun kv => { name := kv.2.name, choice_str_id := kv.1, price_delta := kv.2.price_delta })

/-- A handler outcome: 400 missing-field error, 404 template not found,
or a 200/400 payload. -/
inductive Response (α : Type) where
  | validationError (msg : String) : Response α
  | notFound : Response α
  | ok (body : α) : Response α
deriving DecidableEq, Repr

/-- Body of the validate-configuration response: `{is_valid:false, errors}`
or `{is_valid:true, total_price, selections}` (`server.js:110` and `server.js:120`). -/
inductive ValidateResult where
  | invalid (errors : List String) : ValidateResult
  | valid (total_price : Int) (selections : Selections) : ValidateResult
deriving DecidableEq, Repr

/-- Handler 2, `POST .../available-options/...` (`server.js:43-76`).
`currentSelections` is `none` when the body lacks the field (falsy). -/
def getAvailableOptions (store : Store) (tid cat : String)
    (currentSelections : Option Selections) : Response (List OptionSummary) :=
  match currentSelections with
  | none => .validationError "Missing required fields: currentSelections"
  | some sel =>
      match lookupEntry store tid with
      | none => .notFound
      | some t => .ok (availableOptionsCore t cat sel)

/-- Handler 3, `POST .../validate-configuration` (`server.js:79-121`). -/
def validateConfiguration (store : Store) (tid : String)
    (selections : Option Selections) : Response ValidateResult :=
  match selections with
  | none => .validationError "Missing required fields: selections"
  | some sel =>
      match lookupEntry store tid with
      | none => .notFound
      | some t =>
          let errors := collectErrors sel t.compatibilityRules
          if errors = [] then
            .ok (.valid (t.base_price + priceSum t sel) sel)
          else
            .ok (.invalid errors)

/-- Handler 4, `POST .../set-base-price` (`server.js:124-140`).
`base_price` is `none` when absent; the falsy check `!body.base_price`
also rejects the number `0`. -/
def setBasePrice (store : Store) (tid : String)
    (base_price : Option Int) : Response String × Store :=
  match base_price with
  | none => (.validationError "Missing required fields: base_price", store)
  | some v =>
      if v = 0 then
        (.validationError "Missing required fields: base_price", store)
      else
        (.ok "Base price set successfully.",
         modifyTemplate store tid (fun t => { t with base_price := v }))

/-- Handler 5, `POST .../options/...` (`server.js:143-159`).
`options` is `none` when absent; a present JS object is always truthy. -/
def setOptions (store : Store) (tid cat : String)
    (options : Option CategoryOptions) : Response String × Store :=
  match options with
  | none => (.validationError "Missing required fields: options", store)
  | some o =>
      (.ok "Options added successfully.",
       modifyTemplate store tid (fun t => { t with options := setEntry t.options cat o }))

/-- Handler 1, `POST .../compatibility-rules` (`server.js:20-40`).
Each field is `none` when absent; the falsy check also rejects `""`. -/
def addCompatibilityRule (store : Store) (tid : String)
    (rule_type primary secondary : Option String) : Response String × Store :=
  if rule_type.getD "" = "" ∨ primary.getD "" = "" ∨ secondary.getD "" = "" then
    (.validationError "Missing required fields", store)
  else
    (.ok "Compatibility rule added successfully.",
     modifyTemplate store tid (fun t =>
       { t with compatibilityRules :=
           t.compatibilityRules ++
             [{ rule_type := rule_type.getD "", primary_choice_str_id := primary.getD "",
                secondary_choice_str_id := secondary.getD "" }] }))

/-- Fixture: the single option of the example catalog. -/
def exOptionLegs : ProductOption := { name := "Wood legs", price_delta := 10 }

/-- Fixture: a rule-free template with one category `legs` holding choice
`legs_wood` (price delta 10) and base price 100. -/
def exTemplateA : Template :=
  { compatibilityRules := [],
    options := [("legs", [("legs_wood", exOptionLegs)])],
    base_price := 100 }

/-- Fixture: a store holding `exTemplateA` under identifier `chair`. -/
def exStoreA : Store := [("chair", exTemplateA)]

/-- Fixture: the self-mapping selection context selecting `legs_wood`. -/
def exSelA : Selections := [("legs_wood", "legs_wood")]

/-- Fixture: a selection entry whose key is the category `legs` and whose
value is the choice `legs_wood`. -/
def exSelB : Selections := [("legs", "legs_wood")]

/-- Fixture: the spec scenario rule `REQUIRES(legs_wood, finish_oak)`. -/
def chairRule : Rule :=
  { rule_type := "REQUIRES", primary_choice_str_id := "legs_wood",
    secondary_choice_str_id := "finish_oak" }

/-- Fixture: the spec scenario template carrying only `chairRule`. -/
def exTemplateChair : Template :=
  { compatibilityRules := [chairRule], options := [], base_price := 0 }

/-- Fixture: a store holding the scenario template under `chair`. -/
def exStoreChair : Store := [("chair", exTemplateChair)]

/-- Unfolding of a single rule's error contribution in terms of the rule
evaluator: a rule contributes exactly its violation message when
unsatisfied, and nothing otherwise. -/
theorem ruleErrors_eq (sel : Selections) (r : Rule) :
    ruleErrors sel r = if ruleSatisfied sel r then [] else [violationMessage r] := by
  by_cases h1 : r.rule_type = "REQUIRES"
  · by_cases h2 : isSelected sel r.primary_choice_str_id = true
    · cases h3 : isSelected sel r.secondary_choice_str_id <;>
        simp [ruleErrors, ruleSatisfied, violationMessage, h1, h2, h3]
    · simp [ruleErrors, ruleSatisfied, h1, h2]
  · by_cases h1' : r.rule_type = "INCOMPATIBLE_WITH"
    · by_cases h2 : isSelected sel r.primary_choice_str_id = true
      · cases h3 : isSelected sel r.secondary_choice_str_id <;>
          simp [ruleErrors, ruleSatisfied, violationMessage, h1, h1', h2, h3]
      · simp [ruleErrors, ruleSatisfied, h1, h1', h2]
    · simp [ruleErrors, ruleSatisfied, h1, h1']

/-- The accumulated error list is the ordered violation messages of the
unsatisfied rules. -/
theorem collectErrors_eq (sel : Selections) (rules : List Rule) :
    collectErrors sel rules =
      (rules.filter (fun r => !(ruleSatisfied sel r))).map violationMessage := by
  induction rules with
  | nil => rfl
  | cons r rest ih =>
      cases hb : ruleSatisfied sel r <;>
        simp [collectErrors, ruleErrors_eq, List.filter_cons, hb, ih]

/-- When every rule is satisfied, no error is accumulated. -/
theorem collectErrors_nil_of_sat (sel : Selections) (rules : List Rule)
    (h : ∀ r ∈ rules, ruleSatisfied sel r = true) :
    collectErrors sel rules = [] := by
  induction rules with
  | nil => rfl
  | cons r rest ih =>
      have hr := h r (List.mem_cons_self r rest)
      have hrest := ih (fun x hx => h x (List.mem_cons_of_mem _ hx))
      simp [collectErrors, ruleErrors_eq, hr, hrest]

/-- Nothing is selected in an empty selection context. -/
theorem isSelected_nil (k : String) : isSelected [] k = false := by
  simp [isSelected, lookupEntry]

/-- Every rule is vacuously satisfied by an empty selection context. -/
theorem ruleSatisfied_nil (r : Rule) : ruleSatisfied [] r = true := by
  simp [ruleSatisfied, isSelected_nil]

/-- No rule contributes an error under an empty selection context. -/
theorem collectErrors_nil_sel (rules : List Rule) : collectErrors [] rules = [] := by
  refine collectErrors_nil_of_sat [] rules (fun r _ => ruleSatisfied_nil r)

/-- The step of the price loop adds exactly `entryDelta`. -/
theorem priceStep_eq (t : Template) (acc : Int) (kv : String × String) :
    (match lookupEntry t.options kv.1 with
      | some catOpts =>
          match lookupEntry catOpts kv.2 with
          | some o => acc + o.price_delta
          | none => acc
      | none => acc) = acc + entryDelta t kv := by
  unfold entryDelta
  cases h1 : lookupEntry t.options kv.1 with
  | none => simp
  | some catOpts => cases h2 : lookupEntry catOpts kv.2 <;> simp [h2]

/-- The price loop computes the sum of the per-entry deltas. -/
theorem priceSum_eq (t : Template) (sel : Selections) :
    priceSum t sel = (sel.map (entryDelta t)).sum := by
  have key : ∀ (l : Selections) (a : Int),
      l.foldl (fun acc kv => acc + entryDelta t kv) a = a + (l.map (entryDelta t)).sum := by
    intro l
    induction l with
    | nil => intro a; simp
    | cons kv rest ih =>
        intro a
        rw [List.foldl_cons, List.map_cons, List.sum_cons, ih]
        ring
  have hfun : priceSum t sel = sel.foldl (fun acc kv => acc + entryDelta t kv) 0 := by
    unfold priceSum
    congr 1
    funext acc kv
    exact priceStep_eq t acc kv
  rw [hfun, key sel 0]
  simp

/-- Looking up the mutated identifier after `modifyTemplate` yields the
function applied to the previous template, or to the fresh shell. -/
theorem lookupEntry_modifyTemplate (store : Store) (tid : String) (f : Template → Template) :
    lookupEntry (modifyTemplate store tid f) tid =
      some (f ((lookupEntry store tid).getD emptyTemplate)) := by
  induction store with
  | nil => simp [modifyTemplate, lookupEntry]
  | cons hd rest ih =>
      obtain ⟨k, t⟩ := hd
      by_cases h : k = tid <;> simp [modifyTemplate, lookupEntry, h, ih]

/-- Looking up the assigned key after a JS property assignment yields the
assigned value. -/
theorem lookupEntry_setEntry {α : Type} (m : List (String × α)) (k : String) (v : α) :
    lookupEntry (setEntry m k v) k = some v := by
  induction m with
  | nil => simp [setEntry, lookupEntry]
  | cons hd rest ih =>
      obtain ⟨k', w⟩ := hd
      by_cases h : k' = k <;> simp [setEntry, lookupEntry, h, ih]

/-- Filtering with a constantly-true predicate keeps the whole list. -/
theorem filter_const_true {α : Type} (l : List α) : l.filter (fun _ => true) = l := by
  induction l with
  | nil => rfl
  | cons a rest ih => simp [List.filter_cons, ih]

/-- Filtering with a constantly-false predicate empties the list. -/
theorem filter_const_false {α : Type} (l : List α) : l.filter (fun _ => false) = [] := by
  induction l with
  | nil => rfl
  | cons a rest ih => simp [List.filter_cons, ih]

/-- Every rule set is fully satisfied by an empty selection context. -/
theorem all_ruleSatisfied_nil (rules : List Rule) :
    (rules.all fun r => ruleSatisfied [] r) = true := by
  rw [List.all_eq_true]
  intro r _
  exact ruleSatisfied_nil r

/-- Claim C1 counterexample: with template `exTemplateA` (base price 100,
category `legs` holding choice `legs_wood` with price delta 10) and the
self-mapping selection `legs_wood → legs_wood`, no rule is violated and
the key `legs_wood` resolves to a real option in the category `legs`, so
the claim demands total 110; but the handler looks the key up as a
CATEGORY identifier, finds nothing, and returns total 100. -/
theorem C1_counterexample :
    validateConfiguration exStoreA "chair" (some exSelA) = .ok (.valid 100 exSelA) ∧
    specTotalPrice exTemplateA exSelA = 110 ∧ (100 : Int) ≠ 110 := by
  refine ⟨by decide, by decide, by decide⟩

/-- Claim C1 (amended): for every template and selections map in which all
rules are satisfied, `validateConfiguration` returns `isValid` true with
`totalPrice` equal to `basePrice` plus the sum, over every entry of
`selections`, of the price delta of `options[key][value]` — the key is
resolved as a category identifier and the value as a choice within that
category; entries that do not resolve contribute zero and are silently
ignored, not an error, and each entry is examined exactly once. -/
theorem C1_amended_total_price (store : Store) (tid : String) (t : Template)
    (sel : Selections) (ht : lookupEntry store tid = some t)
    (hsat : ∀ r ∈ t.compatibilityRules, ruleSatisfied sel r = true) :
    validateConfiguration store tid (some sel) =
      .ok (.valid (t.base_price + (sel.map (entryDelta t)).sum) sel) := by
  have herr : collectErrors sel t.compatibilityRules = [] :=
    collectErrors_nil_of_sat sel _ hsat
  simp [validateConfiguration, ht, herr, priceSum_eq]

/-- Witness for the amended C1: selecting entry `legs → legs_wood` against
`exTemplateA` prices to 100 + 10 = 110. -/
theorem C1_amended_total_price_witness :
    validateConfiguration exStoreA "chair" (some exSelB) = .ok (.valid 110 exSelB) := by
  have h := C1_amended_total_price exStoreA "chair" exTemplateA exSelB (by decide)
    (by simp [exTemplateA])
  rw [h]
  decide

/-- Claim C2: a `REQUIRES` rule whose primary is selected is satisfied iff
the secondary is selected; an `INCOMPATIBLE_WITH` rule whose primary is
selected is satisfied iff the secondary is not selected; a rule whose
primary is not selected is vacuously satisfied; and a rule of unknown type
is vacuously satisfied. -/
theorem C2_rule_evaluator_semantics (sel : Selections) (r : Rule) :
    (r.rule_type = "REQUIRES" → isSelected sel r.primary_choice_str_id = true →
      (ruleSatisfied sel r = true ↔ isSelected sel r.secondary_choice_str_id = true)) ∧
    (r.rule_type = "INCOMPATIBLE_WITH" → isSelected sel r.primary_choice_str_id = true →
      (ruleSatisfied sel r = true ↔ isSelected sel r.secondary_choice_str_id = false)) ∧
    (isSelected sel r.primary_choice_str_id = false → ruleSatisfied sel r = true) ∧
    (r.rule_type ≠ "REQUIRES" → r.rule_type ≠ "INCOMPATIBLE_WITH" →
      ruleSatisfied sel r = true) := by
  refine ⟨?_, ?_, ?_, ?_⟩
  · intro h1 h2
    simp [ruleSatisfied, h1, h2]
  · intro h1 h2
    have hne : r.rule_type ≠ "REQUIRES" := by simp [h1]
    simp [ruleSatisfied, h1, h2, hne]
  · intro h
    simp [ruleSatisfied, h]
  · intro h1 h2
    simp [ruleSatisfied, h1, h2]

/-- Witness for C2: with `a` and `b` both selected, `REQUIRES(a, b)` is
satisfied. -/
theorem C2_rule_evaluator_semantics_witness :
    ruleSatisfied [("a", "a"), ("b", "b")]
      { rule_type := "REQUIRES", primary_choice_str_id := "a",
        secondary_choice_str_id := "b" } = true := by
  exact ((C2_rule_evaluator_semantics [("a", "a"), ("b", "b")]
    { rule_type := "REQUIRES", primary_choice_str_id := "a",
      secondary_choice_str_id := "b" }).1 rfl (by decide)).mpr (by decide)

/-- Claim C3: when some rule is violated, the validate handler returns the
failure shape carrying, in the rule set's stored order, exactly the
violation messages of the unsatisfied rules — each the `requires` or
`is incompatible with` sentence naming the two choice identifiers — and no
price is computed or returned. -/
theorem C3_invalid_reports_all_violations (store : Store) (tid : String) (t : Template)
    (sel : Selections) (ht : lookupEntry store tid = some t)
    (rv : Rule) (hmem : rv ∈ t.compatibilityRules) (hviol : ruleSatisfied sel rv = false) :
    validateConfiguration store tid (some sel) =
      .ok (.invalid
        ((t.compatibilityRules.filter (fun r => !(ruleSatisfied sel r))).map
          violationMessage)) := by
  have hmem' : rv ∈ t.compatibilityRules.filter (fun r => !(ruleSatisfied sel r)) := by
    rw [List.mem_filter]
    exact ⟨hmem, by simp [hviol]⟩
  have hne : collectErrors sel t.compatibilityRules ≠ [] := by
    rw [collectErrors_eq]
    intro hcontra
    rw [List.map_eq_nil_iff] at hcontra
    rw [hcontra] at hmem'
    exact List.not_mem_nil _ hmem'
  simp [validateConfiguration, ht, hne, collectErrors_eq]
  exact ⟨rv, hmem, hviol⟩

/-- Witness for C3: the spec scenario — rule `REQUIRES(legs_wood, finish_oak)`
with only `legs_wood` selected yields the single requires message. -/
theorem C3_invalid_reports_all_violations_witness :
    validateConfiguration exStoreChair "chair" (some exSelA) =
      .ok (.invalid ["\"legs_wood\" requires \"finish_oak\""]) := by
  have h := C3_invalid_reports_all_violations exStoreChair "chair" exTemplateChair exSelA
    (by decide) chairRule (by decide) (by decide)
  rw [h]
  decide

/-- Claim C4: for every existing template, validating an empty selections
map succeeds with total price equal to the template's base price. -/
theorem C4_empty_selections_base_price (store : Store) (tid : String) (t : Template)
    (ht : lookupEntry store tid = some t) :
    validateConfiguration store tid (some []) = .ok (.valid t.base_price []) := by
  have herr : collectErrors [] t.compatibilityRules = [] := collectErrors_nil_sel _
  simp [validateConfiguration, ht, herr, priceSum]

/-- Witness for C4: the example template with base price 100 validates the
empty selection map to total 100. -/
theorem C4_empty_selections_base_price_witness :
    validateConfiguration exStoreA "chair" (some []) = .ok (.valid 100 []) := by
  have h := C4_empty_selections_base_price exStoreA "chair" exTemplateA (by decide)
  rw [h]
  decide

/-- Claim C5: appending any additional rule to a template's rule set can
only shrink or preserve the result of the option filter for a fixed target
category and selections map, never grow it. -/
theorem C5_rule_append_monotonic (t : Template) (r : Rule) (cat : String) (sel : Selections) :
    List.Sublist
      (availableOptionsCore { t with compatibilityRules := t.compatibilityRules ++ [r] }
        cat sel)
      (availableOptionsCore t cat sel) := by
  cases hall : t.compatibilityRules.all (fun ru => ruleSatisfied sel ru) with
  | false =>
      have h1 : availableOptionsCore t cat sel = [] := by
        simp [availableOptionsCore, hall, filter_const_false]
      have h2 : availableOptionsCore
          { t with compatibilityRules := t.compatibilityRules ++ [r] } cat sel = [] := by
        simp [availableOptionsCore, List.all_append, hall, filter_const_false]
      rw [h1, h2]
  | true =>
      cases hr : ruleSatisfied sel r with
      | false =>
          have h2 : availableOptionsCore
              { t with compatibilityRules := t.compatibilityRules ++ [r] } cat sel = [] := by
            simp [availableOptionsCore, List.all_append, hall, hr, filter_const_false]
          rw [h2]
          exact List.nil_sublist _
      | true =>
          have h2 : availableOptionsCore
              { t with compatibilityRules := t.compatibilityRules ++ [r] } cat sel =
              availableOptionsCore t cat sel := by
            simp [availableOptionsCore, List.all_append, hall, hr]
          rw [h2]

/-- Claim C6: an identifier absent from the store yields a caller-visible
not-found error, not an empty list; an existing template whose options lack
the target category yields the empty sequence, not an error. -/
theorem C6_not_found_vs_empty_category (store : Store) (tid tid' cat cat' : String)
    (sel sel' : Selections) (t : Template)
    (h1 : lookupEntry store tid = none)
    (h2 : lookupEntry store tid' = some t)
    (h3 : lookupEntry t.options cat' = none) :
    getAvailableOptions store tid cat (some sel) = .notFound ∧
    getAvailableOptions store tid' cat' (some sel') = .ok [] := by
  constructor
  · simp [getAvailableOptions, h1]
  · simp [getAvailableOptions, h2, availableOptionsCore, h3]

/-- Witness for C6: `ghost` is unknown in the example store, and the
existing `chair` template has no `armrest` category. -/
theorem C6_not_found_vs_empty_category_witness :
    getAvailableOptions exStoreA "ghost" "legs" (some []) = .notFound ∧
    getAvailableOptions exStoreA "chair" "armrest" (some []) = .ok [] := by
  exact C6_not_found_vs_empty_category exStoreA "ghost" "chair" "legs" "armrest" [] []
    exTemplateA (by decide) (by decide) (by decide)

/-- Claim C7 counterexample: supplying `base_price = 0` — a perfectly valid
value per the claim — trips the JS falsy check `!body.base_price`, so the
handler returns a validation error, sends no ack, and creates no template. -/
theorem C7_counterexample :
    setBasePrice ([] : Store) "t1" (some 0) =
      (.validationError "Missing required fields: base_price", ([] : Store)) ∧
    lookupEntry (setBasePrice ([] : Store) "t1" (some 0)).2 "t1" = none := by
  exact ⟨rfl, rfl⟩

/-- Claim C7 (amended): for every template identifier and every NONZERO
`base_price` value supplied, `setBasePrice` returns an ack and overwrites
the template's base price, auto-creating the shell
`{rules: [], options: {}, basePrice: 0}` when the identifier was never used
before; it never fails on a missing template.  A supplied `base_price` of 0
is rejected as missing by the falsy-field check. -/
theorem C7_amended_nonzero_base_price (store : Store) (tid : String) (v : Int)
    (hv : v ≠ 0) :
    (setBasePrice store tid (some v)).1 = .ok "Base price set successfully." ∧
    lookupEntry (setBasePrice store tid (some v)).2 tid =
      some { (lookupEntry store tid).getD emptyTemplate with base_price := v } := by
  have hstep : setBasePrice store tid (some v) =
      (.ok "Base price set successfully.",
       modifyTemplate store tid (fun t => { t with base_price := v })) := by
    simp [setBasePrice, hv]
  rw [hstep]
  exact ⟨rfl, lookupEntry_modifyTemplate store tid _⟩

/-- Witness for the amended C7: setting base price 5 on a fresh identifier
acks and creates the shell with base price 5. -/
theorem C7_amended_nonzero_base_price_witness :
    (setBasePrice ([] : Store) "t1" (some 5)).1 = .ok "Base price set successfully." ∧
    lookupEntry (setBasePrice ([] : Store) "t1" (some 5)).2 "t1" =
      some { emptyTemplate with base_price := 5 } := by
  have h := C7_amended_nonzero_base_price [] "t1" 5 (by decide)
  exact ⟨h.1, by rw [h.2]; rfl⟩

/-- Claim C8: setting a category's options to the single entry
`x ↦ {name "X", priceDelta 5}` and then asking for the available options of
that category under the empty selection map returns exactly the one-element
summary list, from any starting store. -/
theorem C8_set_options_roundtrip (store : Store) (tid cat : String) :
    getAvailableOptions
        (setOptions store tid cat (some [("x", { name := "X", price_delta := 5 })])).2
        tid cat (some []) =
      .ok [{ name := "X", choice_str_id := "x", price_delta := 5 }] := by
  have hlook : lookupEntry
      (setOptions store tid cat (some [("x", { name := "X", price_delta := 5 })])).2 tid =
      some { (lookupEntry store tid).getD emptyTemplate with
             options := setEntry ((lookupEntry store tid).getD emptyTemplate).options cat
               [("x", { name := "X", price_delta := 5 })] } := by
    simp only [setOptions]
    exact lookupEntry_modifyTemplate store tid _
  simp [getAvailableOptions, hlook, availableOptionsCore, lookupEntry_setEntry,
    all_ruleSatisfied_nil, filter_const_true]

/-- Claim C9: the option filter is all-or-nothing — when every rule is
satisfied against the current selections it returns the category's entire
option mapping in insertion order, and when any rule is unsatisfied it
returns the empty sequence; no proper non-empty subset is possible. -/
theorem C9_all_or_nothing (t : Template) (cat : String) (sel : Selections) :
    ((t.compatibilityRules.all fun r => ruleSatisfied sel r) = true →
      availableOptionsCore t cat sel =
        ((lookupEntry t.options cat).getD []).map
          (fun kv => { name := kv.2.name, choice_str_id := kv.1,
                       price_delta := kv.2.price_delta })) ∧
    ((t.compatibilityRules.all fun r => ruleSatisfied sel r) = false →
      availableOptionsCore t cat sel = []) := by
  constructor
  · intro h
    simp [availableOptionsCore, h, filter_const_true]
  · intro h
    simp [availableOptionsCore, h, filter_const_false]

/-- Witness for C9: the rule-free example template returns its whole `legs`
category. -/
theorem C9_all_or_nothing_witness :
    availableOptionsCore exTemplateA "legs" [] =
      [{ name := "Wood legs", choice_str_id := "legs_wood", price_delta := 10 }] := by
  have h := (C9_all_or_nothing exTemplateA "legs" []).1 (by decide)
  rw [h]
  decide

/-- Claim C10: a request body lacking its required field is rejected with a
validation error before the template lookup, for both read handlers, so the
not-found error is never returned in that case — for every store and
identifier, known or unknown. -/
theorem C10_missing_field_before_lookup (store : Store) (tid cat : String) :
    getAvailableOptions store tid cat none =
      .validationError "Missing required fields: currentSelections" ∧
    validateConfiguration store tid none =
      .validationError "Missing required fields: selections" := by
  exact ⟨rfl, rfl⟩

end ConfigServer
